import Mathlib

/-!
Shallow embedding of the SmartLife-Agent web client (and, where the
repository ships only the client wrappers, a spec-modelled backend),
with theorems settling the frozen claims about it.

The TypeScript client keeps component state in plain records and lists;
we embed those as Lean structures and `List`s, network calls as values of
an explicit `ApiCall` effect type, and the JavaScript truthiness tests
the code performs on nullable strings as `jsTruthy`.
-/

namespace SmartLife

/-- JavaScript truthiness of a `string | null` value: `null` and the empty
string are falsy, every other string is truthy.  The client tests tokens,
query parameters and ids with bare `if (x)` checks of this kind. -/
def jsTruthy : Option String → Bool
  | none => false
  | some s => !(s == "")

/-- JavaScript `s || undefined` on a plain string: the empty string is
replaced by `undefined` (here `none`). -/
def jsOrUndefined (s : String) : Option String :=
  if s == "" then none else some s

/-- JavaScript `x || undefined` on a `string | null | undefined` value. -/
def jsOptOrUndefined : Option String → Option String
  | none => none
  | some s => if s == "" then none else some s

/-! ## The shared request helper (`request` in services/api.ts)

`request` reads the token from `localStorage`, builds the headers, performs
the fetch, and on a non-ok response throws an `Error` whose message comes
from the `error` field of the JSON body with two fallbacks. -/

/-- The outcome of `await response.json().catch(...)` seen through the only
projection the helper uses: whether the body parsed at all. -/
inductive ParsedBody (J : Type) where
  | parseFail
  | parsed (value : J)
deriving DecidableEq

/-- An HTTP response as the request helper observes it: the `ok` flag, the
numeric status, and the body parse outcome. -/
structure HttpResponse (J : Type) where
  ok : Bool
  status : Nat
  body : ParsedBody J

/-- The fallback message `HTTP error! status: <code>`. -/
def httpStatusMessage (status : Nat) : String :=
  "HTTP error! status: " ++ toString status

/-- The message of the `Error` the helper throws on a non-ok response:
`error.error || \x7bHTTP error! status\x7d`, where a failed body parse was
replaced by `\x7b error: Request failed \x7d` by the `.catch` handler.
`errorField` extracts the `error` property of the body (`none` when absent). -/
def requestErrorMessage {J : Type} (errorField : J → Option String)
    (status : Nat) : ParsedBody J → String
  | .parseFail => "Request failed"
  | .parsed v =>
      match errorField v with
      | some e => if e == "" then httpStatusMessage status else e
      | none => httpStatusMessage status

/-- What a call through the helper produces: the parsed body on success, a
thrown `Error` with a message on a non-ok response, or a JavaScript
exception when an ok body fails to parse as JSON. -/
inductive RequestResult (J : Type) where
  | ok (body : J)
  | thrown (message : String)
  | jsException
deriving DecidableEq

/-- The control flow of the shared `request` helper, given the observed
response: ok responses return the parsed JSON body, non-ok responses throw
with `requestErrorMessage`. -/
def request {J : Type} (errorField : J → Option String)
    (r : HttpResponse J) : RequestResult J :=
  if r.ok then
    match r.body with
    | .parsed v => .ok v
    | .parseFail => .jsException
  else
    .thrown (requestErrorMessage errorField r.status r.body)

/-! ## Header construction in the request helper -/

/-- Model of `Headers.set`: replace the value under a key, or append it. -/
def setHeader (k v : String) (hs : List (String × String)) :
    List (String × String) :=
  if hs.any (fun p => p.1 == k) then
    hs.map (fun p => if p.1 == k then (k, v) else p)
  else hs ++ [(k, v)]

/-- Whether a header with the given key is present. -/
def hasHeader (k : String) (hs : List (String × String)) : Bool :=
  hs.any (fun p => p.1 == k)

/-- The first header step of the request helper: default
`Content-Type: application/json` when a body is present and the caller
set no content type. -/
def contentHeaders (callerHeaders : List (String × String))
    (hasBody : Bool) : List (String × String) :=
  if !(hasHeader "Content-Type" callerHeaders) && hasBody then
    setHeader "Content-Type" "application/json" callerHeaders
  else callerHeaders

/-- The headers the request helper sends: the headers of the caller, a
`Content-Type: application/json` default when a body is present, and
`Authorization: Bearer <token>` when `localStorage` holds a truthy token. -/
def buildHeaders (token : Option String)
    (callerHeaders : List (String × String)) (hasBody : Bool) :
    List (String × String) :=
  if jsTruthy token then
    setHeader "Authorization" ("Bearer " ++ token.getD "")
      (contentHeaders callerHeaders hasBody)
  else contentHeaders callerHeaders hasBody

/-! ## The OAuth callback page (`OAuthCallback`) -/

/-- What the callback page does once it has read the query parameters:
either it moves to the error status with a message and issues no request,
or it calls the calendar OAuth completion endpoint with the code and
state. -/
inductive CallbackOutcome where
  | errorStatus (message : String)
  | complete (code state : String)
deriving DecidableEq

/-- The decision the `OAuthCallback` effect makes from the `code`, `state`
and `error` query parameters (each `none` when absent from the URL). -/
def oauthCallbackStep (code state oauthError : Option String) :
    CallbackOutcome :=
  if jsTruthy oauthError then
    .errorStatus "Authentication failed. Please try again."
  else if !(jsTruthy code && jsTruthy state) then
    .errorStatus "Missing authorization code. Please try again."
  else
    .complete (code.getD "") (state.getD "")

/-- Whether the outcome issues the completion request. -/
def issuesCompletion : CallbackOutcome → Bool
  | .complete _ _ => true
  | .errorStatus _ => false

/-! ## The auth context (`AuthProvider`) -/

/-- The user identity the auth endpoints return. -/
structure UserInfo where
  id : String
  email : String
  name : Option String
deriving DecidableEq

/-- The auth-relevant client state: the `user` state variable and the
`token` entry of `localStorage`. -/
structure AuthState where
  user : Option UserInfo
  storedToken : Option String
deriving DecidableEq

/-- The flag `isAuthenticated`, defined as `!!user`. -/
def isAuthenticated (s : AuthState) : Bool :=
  s.user.isSome

/-- The `logout` action: remove the stored token and clear the user. -/
def logout (_s : AuthState) : AuthState :=
  { user := none, storedToken := none }

/-- The startup effect of `AuthProvider`: with a truthy stored token it
verifies it — on success the user is set, on failure the token is removed
from storage and the user stays unset; with no truthy token nothing
happens. `verify` is the verdict of the backend on each token. -/
def initAuth (stored : Option String) (verify : String → Option UserInfo) :
    AuthState :=
  match stored with
  | none => { user := none, storedToken := none }
  | some t =>
      if t == "" then { user := none, storedToken := some t }
      else
        match verify t with
        | some u => { user := some u, storedToken := some t }
        | none => { user := none, storedToken := none }

/-! ## The password-change form (`handlePasswordUpdate` in Settings) -/

/-- The form state the password handler touches. -/
structure SettingsState where
  errorMsg : String
  successMsg : String
  currentPassword : String
  newPassword : String
  confirmPassword : String
deriving DecidableEq

/-- The synchronous part of `handlePasswordUpdate`: clear the banners,
validate, and either stop with an inline error or issue the
update-password request with `(current, new)`. -/
def passwordUpdateStep (s : SettingsState) :
    SettingsState × Option (String × String) :=
  if s.newPassword != s.confirmPassword then
    ({ s with
        errorMsg := "New passwords do not match",
        successMsg := "" }, none)
  else if s.newPassword.length < 6 then
    ({ s with
        errorMsg := "New password must be at least 6 characters long",
        successMsg := "" }, none)
  else
    ({ s with errorMsg := "", successMsg := "" },
     some (s.currentPassword, s.newPassword))

/-! ## Effects issued by chat handlers

The claims distinguish which handler issues which network call, so the
handlers are modelled as pure state transformers paired with the list of
API calls they issue. -/

/-- The API calls the chat handlers can issue. -/
inductive ApiCall where
  | chatSend (message : String)
  | projectCreate (title : String) (description : Option String)
      (due_date : Option String)
deriving DecidableEq

/-- Whether a call is a project-creation request. -/
def ApiCall.isCreate : ApiCall → Bool
  | .projectCreate _ _ _ => true
  | .chatSend _ => false

/-! ## The goal chat component (general chat with proposals) -/

/-- A project the AI proposes in a chat response. -/
structure ProposedProject where
  title : String
  description : String
  due_date : Option String
deriving DecidableEq

/-- A proposal held in conversation state: the proposal plus a local id,
the selection flag, and the owning conversation id. -/
structure EditableProject where
  id : String
  title : String
  description : String
  due_date : Option String
  selected : Bool
  conversationId : String
deriving DecidableEq

/-- A message of a goal conversation: the user text, the AI response, and
the proposals the response carried, if any. -/
structure GoalMessage where
  id : String
  message : String
  response : String
  timestamp : String
  proposedProjects : Option (List EditableProject)
  requiresConfirmation : Option Bool
deriving DecidableEq

/-- A goal conversation. -/
structure Conversation where
  id : String
  title : String
  messages : List GoalMessage
  createdAt : String
deriving DecidableEq

/-- The body of a chat response: the text, the optional proposal list, and
the optional confirmation flag. -/
structure ChatResponse where
  response : String
  proposed_projects : Option (List ProposedProject)
  requires_confirmation : Option Bool
deriving DecidableEq

/-- The network calls the goal-chat submit handler issues: exactly one
chat send, whatever the outcome. -/
def handleSubmitEffects (userMessage : String) : List ApiCall :=
  [ .chatSend userMessage ]

/-- The proposals of a response turned into conversation state:
`proj-<finalId>-<idx>` ids, `selected: false`, the conversation id. -/
def mkEditableProjects (finalId convId : String)
    (ps : List ProposedProject) : List EditableProject :=
  ps.enum.map (fun pr =>
    { id := "proj-" ++ finalId ++ "-" ++ toString pr.1,
      title := pr.2.title,
      description := pr.2.description,
      due_date := pr.2.due_date,
      selected := false,
      conversationId := convId })

/-- The per-message update the goal-chat submit handler applies when the
chat call succeeds: the message under the temporary id gets the final id,
the response text, the proposals (when the list is non-empty), and the
confirmation flag; every other message is returned as is. -/
def resolveGoalMessage (tempId finalId : String) (resp : ChatResponse)
    (eps : List EditableProject) (m : GoalMessage) : GoalMessage :=
  if m.id == tempId then
    { m with
      id := finalId,
      response := resp.response,
      proposedProjects := if eps.length > 0 then some eps else none,
      requiresConfirmation := resp.requires_confirmation }
  else m

/-- The success branch of the goal-chat submit handler over the whole
conversations state. -/
def resolveGoalSubmitSuccess (convId tempId finalId : String)
    (resp : ChatResponse) (convs : List Conversation) : List Conversation :=
  let eps := mkEditableProjects finalId convId (resp.proposed_projects.getD [])
  convs.map (fun c =>
    if c.id == convId then
      { c with
        messages := c.messages.map (resolveGoalMessage tempId finalId resp eps) }
    else c)

/-- The create call `handleMoveSelectedProjects` issues for one selected
proposal: title, and description and due date with empty values dropped
via `|| undefined`. -/
def createCallOf (p : EditableProject) : ApiCall :=
  .projectCreate p.title (jsOrUndefined p.description)
    (jsOptOrUndefined p.due_date)

/-- The network calls `handleMoveSelectedProjects` issues: one create per
proposal selected at that moment, in order. -/
def handleMoveSelectedEffects (projs : List EditableProject) :
    List ApiCall :=
  (projs.filter (fun p => p.selected)).map createCallOf

/-! ## Toggling a proposal selection (`handleToggleProjectSelection`) -/

/-- Flip the `selected` flag of the proposal with the given id, leave any
other proposal unchanged. -/
def toggleProject (projectId : String) (p : EditableProject) :
    EditableProject :=
  if p.id == projectId then { p with selected := !p.selected } else p

/-- Apply the toggle inside the proposal list of one message. -/
def toggleInMessage (projectId : String) (m : GoalMessage) : GoalMessage :=
  { m with proposedProjects :=
      m.proposedProjects.map (List.map (toggleProject projectId)) }

/-- Apply the toggle inside the conversation with the current id. -/
def toggleInConversation (currentId projectId : String)
    (c : Conversation) : Conversation :=
  if c.id == currentId then
    { c with messages := c.messages.map (toggleInMessage projectId) }
  else c

/-- The handler `handleToggleProjectSelection`: a no-op without a truthy current
conversation id, otherwise the toggle mapped over the conversations. -/
def handleToggleProjectSelection (currentId : Option String)
    (projectId : String) (convs : List Conversation) : List Conversation :=
  if jsTruthy currentId then
    convs.map (toggleInConversation (currentId.getD "") projectId)
  else convs

/-! ## The plain chat page (provisional message reconciliation) -/

/-- A message of the plain chat page. -/
structure SimpleMessage where
  id : String
  message : String
  response : String
  timestamp : String
deriving DecidableEq

/-- The fixed text shown when the chat call fails. -/
def errorResponseText : String :=
  "Sorry, I encountered an error. Please try again."

/-- The optimistic step of `handleSubmit`: append a provisional message
with the user text and an empty response under the temporary id. -/
def appendProvisional (tempId userMessage ts : String)
    (msgs : List SimpleMessage) : List SimpleMessage :=
  msgs ++ [{ id := tempId, message := userMessage, response := "",
             timestamp := ts }]

/-- The success branch once the chat call resolves: the message under the
temporary id gets the AI response and a fresh id; every other message is
returned as is. -/
def resolveChatSuccess (tempId newId response : String)
    (msgs : List SimpleMessage) : List SimpleMessage :=
  msgs.map (fun m =>
    if m.id == tempId then { m with response := response, id := newId }
    else m)

/-- The failure branch: the message under the temporary id gets the fixed
error text; every other message is returned as is. -/
def resolveChatError (tempId : String) (msgs : List SimpleMessage) :
    List SimpleMessage :=
  msgs.map (fun m =>
    if m.id == tempId then { m with response := errorResponseText } else m)

/-- The network calls one plain-chat submission issues: exactly one chat
send, with no retry on failure. -/
def chatSubmitEffects (userMessage : String) : List ApiCall :=
  [ .chatSend userMessage ]

/-! ## The project workspace plan generation (`handleGeneratePlan`) -/

/-- A project as the workspace state holds it. -/
structure PlanProject where
  id : String
  title : String
  description : Option String
  due_date : Option String
  plan : Option String
deriving DecidableEq

/-- The result of a `generatePlan` call: the plan text and the flag that
the AI is asking a clarifying question. -/
structure PlanResult where
  plan : String
  needs_clarification : Bool
deriving DecidableEq

/-- The state update `handleGeneratePlan` applies to the selected project
and the projects list once the call succeeds: with `needs_clarification`
nothing changes; otherwise the plan of the selected project and its entry in
the list are replaced by the returned plan text. -/
def applyGeneratePlanResult (sel : PlanProject) (projects : List PlanProject)
    (r : PlanResult) : PlanProject × List PlanProject :=
  if r.needs_clarification then (sel, projects)
  else
    ({ sel with plan := some r.plan },
     projects.map (fun p =>
       if p.id == sel.id then { p with plan := some r.plan } else p))

/-- In the plan branch of `handleSendMessage`, the stored project is reloaded
(and the plan-generation mode left) only when the result is not a
clarifying question. -/
def sendMessagePlanReloads (r : PlanResult) : Bool :=
  !r.needs_clarification

/-! ## The backend projects store

Modelled from the spec: the backend Projects CRUD endpoints are not in
src/ (only the client wrappers `projectsApi.create/get/update` are), so
the store is modelled from the words of the spec: create persists the given
title, description and due date; get returns the stored record; update
merges exactly the provided fields and leaves the others unchanged. -/

/-- Modelled from the spec: a stored Project row — id, title, optional
description, due date and plan text. -/
structure BackendProject where
  id : String
  title : String
  description : Option String
  due_date : Option String
  plan : Option String
deriving DecidableEq

/-- Modelled from the spec: a partial Project update — each field is
provided or absent. -/
structure BackendProjectUpdate where
  title : Option String
  description : Option String
  due_date : Option String
deriving DecidableEq

/-- Modelled from the spec: create persists a new Project with the given
fields and no plan. -/
def createProject (store : List BackendProject) (id title : String)
    (description due_date : Option String) : List BackendProject :=
  store ++ [{ id := id, title := title, description := description,
              due_date := due_date, plan := none }]

/-- Modelled from the spec: get returns the stored Project with the given
id. -/
def getProject (store : List BackendProject) (id : String) :
    Option BackendProject :=
  store.find? (fun p => p.id == id)

/-- Modelled from the spec: an update sets exactly the provided fields
and keeps every other field of the row. -/
def applyProjectUpdate (p : BackendProject) (u : BackendProjectUpdate) :
    BackendProject :=
  { p with
    title := u.title.getD p.title,
    description := match u.description with
      | some d => some d
      | none => p.description,
    due_date := match u.due_date with
      | some d => some d
      | none => p.due_date }

/-- Modelled from the spec: update rewrites the row with the given id and
leaves every other row unchanged. -/
def updateProject (store : List BackendProject) (id : String)
    (u : BackendProjectUpdate) : List BackendProject :=
  store.map (fun p => if p.id == id then applyProjectUpdate p u else p)

/-! ## Concrete sample values used by witnesses -/

/-- A sample unselected proposal. -/
def demoProj : EditableProject :=
  { id := "proj-a-0", title := "Learn Go", description := "",
    due_date := none, selected := false, conversationId := "conv-1" }

/-- A sample selected proposal. -/
def demoSel : EditableProject :=
  { demoProj with id := "proj-a-1", selected := true }

/-- A sample message carrying a proposal. -/
def demoMsg : GoalMessage :=
  { id := "m1", message := "hi", response := "ok", timestamp := "t0",
    proposedProjects := some [demoProj], requiresConfirmation := some true }

/-- A sample provisional message under the temporary id `t`. -/
def demoTempMsg : GoalMessage :=
  { id := "t", message := "hi", response := "", timestamp := "t0",
    proposedProjects := none, requiresConfirmation := none }

/-- A sample conversation. -/
def demoConv : Conversation :=
  { id := "conv-1", title := "hi", messages := [demoMsg], createdAt := "t0" }

/-- A sample workspace project with a stored plan. -/
def demoPlanProj : PlanProject :=
  { id := "p1", title := "T", description := none, due_date := none,
    plan := some "old plan" }

/-- A sample stored backend project. -/
def demoBack : BackendProject :=
  { id := "x", title := "A", description := some "d", due_date := none,
    plan := some "pl" }

/-! ## Helper lemmas -/

theorem hasHeader_setHeader_ne (k k2 v : String)
    (hs : List (String × String)) (hne : k ≠ k2) :
    hasHeader k (setHeader k2 v hs) = hasHeader k hs := by
  unfold hasHeader setHeader
  split
  · rw [List.any_map]
    congr 1
    funext p
    by_cases hp : p.1 = k2
    · simp [Function.comp, hp, Ne.symm hne]
    · simp [Function.comp, hp]
  · simp [List.any_append, Ne.symm hne]

theorem hasHeader_setHeader_self (k v : String)
    (hs : List (String × String)) :
    hasHeader k (setHeader k v hs) = true := by
  unfold hasHeader setHeader
  split
  · rename_i hcond
    rw [List.any_eq_true] at hcond ⊢
    obtain ⟨p, hp, hpk⟩ := hcond
    refine ⟨(k, v), List.mem_map.mpr ⟨p, hp, ?_⟩, ?_⟩
    · simp at hpk
      simp [hpk]
    · simp
  · simp [List.any_append]

theorem mem_setHeader_of_not_has (k v : String)
    (hs : List (String × String)) (h : hasHeader k hs = false) :
    (k, v) ∈ setHeader k v hs := by
  unfold hasHeader at h
  unfold setHeader
  rw [h]
  simp

/-! ## Claim theorems -/

/-- C4: for every call through the shared request helper, a non-ok
response makes the helper throw — with the `error` field of the body when the
body parses as JSON with a non-empty `error` field, with `Request failed`
when the body does not parse as JSON, and with
`HTTP error! status: <code>` otherwise — and an ok response returns the
parsed JSON body. -/
theorem request_error_taxonomy {J : Type} (errorField : J → Option String)
    (r : HttpResponse J) :
    (r.ok = false → ∀ v, r.body = .parsed v → ∀ e, errorField v = some e →
      e ≠ "" → request errorField r = .thrown e)
  ∧ (r.ok = false → r.body = .parseFail →
      request errorField r = .thrown "Request failed")
  ∧ (r.ok = false → ∀ v, r.body = .parsed v →
      (errorField v = none ∨ errorField v = some "") →
      request errorField r = .thrown (httpStatusMessage r.status))
  ∧ (r.ok = true → ∀ v, r.body = .parsed v →
      request errorField r = .ok v) := by
  refine ⟨?_, ?_, ?_, ?_⟩
  · intro hok v hv e he hne
    simp [request, hok, hv, requestErrorMessage, he, hne]
  · intro hok hb
    simp [request, hok, hb, requestErrorMessage]
  · intro hok v hv he
    rcases he with he | he <;>
      simp [request, hok, hv, requestErrorMessage, he]
  · intro hok v hv
    simp [request, hok, hv]

/-- C4 witness: the four branches evaluated at concrete responses. -/
theorem request_error_taxonomy_witness :
    request id ⟨false, 404, .parsed (some "boom")⟩ =
      RequestResult.thrown "boom"
  ∧ request id ⟨false, 500, .parseFail⟩ =
      RequestResult.thrown "Request failed"
  ∧ request id ⟨false, 418, .parsed none⟩ =
      RequestResult.thrown (httpStatusMessage 418)
  ∧ request id ⟨true, 200, .parsed (some "x")⟩ =
      RequestResult.ok (some "x") :=
  ⟨(request_error_taxonomy id ⟨false, 404, .parsed (some "boom")⟩).1 rfl
      (some "boom") rfl "boom" rfl (by decide),
   (request_error_taxonomy id ⟨false, 500, .parseFail⟩).2.1 rfl rfl,
   (request_error_taxonomy id ⟨false, 418, .parsed none⟩).2.2.1 rfl
      none rfl (Or.inl rfl),
   (request_error_taxonomy id ⟨true, 200, .parsed (some "x")⟩).2.2.2 rfl
      (some "x") rfl⟩

/-- C5: the OAuth callback page issues the calendar OAuth completion
request exactly when the URL carries truthy `code` and `state` parameters
and no truthy `error` parameter; with a provider error or a missing
parameter it moves to the error status and issues no completion
request. -/
theorem oauth_callback_completion_guard (code state oauthError :
    Option String) :
    (issuesCompletion (oauthCallbackStep code state oauthError) = true ↔
      jsTruthy code = true ∧ jsTruthy state = true ∧
      jsTruthy oauthError = false)
  ∧ ((jsTruthy oauthError = true ∨ jsTruthy code = false ∨
        jsTruthy state = false) →
      issuesCompletion (oauthCallbackStep code state oauthError) = false ∧
      ∃ msg, oauthCallbackStep code state oauthError =
        CallbackOutcome.errorStatus msg)
  ∧ (jsTruthy code = true → jsTruthy state = true →
      jsTruthy oauthError = false →
      oauthCallbackStep code state oauthError =
        CallbackOutcome.complete (code.getD "") (state.getD "")) := by
  cases he : jsTruthy oauthError <;> cases hc : jsTruthy code <;>
    cases hs : jsTruthy state <;>
    simp_all [oauthCallbackStep, issuesCompletion]

/-- C5 witness: a provider error suppresses the completion request, and a
well-formed callback issues it. -/
theorem oauth_callback_completion_guard_witness :
    (issuesCompletion (oauthCallbackStep (some "c0") (some "s0")
        (some "access_denied")) = false ∧
      ∃ msg, oauthCallbackStep (some "c0") (some "s0")
        (some "access_denied") = CallbackOutcome.errorStatus msg)
  ∧ oauthCallbackStep (some "c0") (some "s0") none =
      CallbackOutcome.complete "c0" "s0" :=
  ⟨(oauth_callback_completion_guard (some "c0") (some "s0")
      (some "access_denied")).2.1 (Or.inl (by decide)),
   (oauth_callback_completion_guard (some "c0") (some "s0") none).2.2
      (by decide) (by decide) rfl⟩

/-- C6: `isAuthenticated` is true exactly when a user is set, `logout`
removes the stored token and clears the user, and a failed startup token
verification removes the token from storage and leaves the user unset. -/
theorem auth_state_invariants :
    (∀ s : AuthState, isAuthenticated s = true ↔ ∃ u, s.user = some u)
  ∧ (∀ s : AuthState,
      (logout s).storedToken = none ∧ (logout s).user = none)
  ∧ (∀ (t : String) (verify : String → Option UserInfo), t ≠ "" →
      verify t = none →
      (initAuth (some t) verify).storedToken = none ∧
      (initAuth (some t) verify).user = none) := by
  refine ⟨?_, ?_, ?_⟩
  · intro s
    simp [isAuthenticated, Option.isSome_iff_exists]
  · intro s
    simp [logout]
  · intro t verify ht hv
    simp [initAuth, ht, hv]

/-- C6 witness: a failed verification of the stored token `tok` clears
both the storage and the user. -/
theorem auth_state_invariants_witness :
    (initAuth (some "tok") (fun _ => none)).storedToken = none ∧
    (initAuth (some "tok") (fun _ => none)).user = none :=
  auth_state_invariants.2.2 "tok" (fun _ => none) (by decide) rfl

/-- C7: a request built by the shared helper carries the
`Authorization: Bearer <token>` header exactly when `localStorage` holds
a truthy token at the time of the call (given the caller supplied no
`Authorization` header, as no API-client call does); with no stored token
the request carries none. -/
theorem request_auth_header (token : Option String)
    (callerHeaders : List (String × String)) (hasBody : Bool)
    (h : hasHeader "Authorization" callerHeaders = false) :
    (hasHeader "Authorization" (buildHeaders token callerHeaders hasBody) =
        true ↔ jsTruthy token = true)
  ∧ (jsTruthy token = true →
      ("Authorization", "Bearer " ++ token.getD "") ∈
        buildHeaders token callerHeaders hasBody)
  ∧ (token = none →
      hasHeader "Authorization" (buildHeaders token callerHeaders hasBody)
        = false) := by
  have hct : hasHeader "Authorization"
      (contentHeaders callerHeaders hasBody) = false := by
    unfold contentHeaders
    split
    · rw [hasHeader_setHeader_ne _ _ _ _ (by decide)]
      exact h
    · exact h
  by_cases ht : jsTruthy token = true
  · have hbh : buildHeaders token callerHeaders hasBody =
        setHeader "Authorization" ("Bearer " ++ token.getD "")
          (contentHeaders callerHeaders hasBody) := by
      unfold buildHeaders
      rw [if_pos ht]
    rw [hbh]
    refine ⟨?_, fun _ => ?_, fun hnone => ?_⟩
    · rw [hasHeader_setHeader_self]
      simp [ht]
    · exact mem_setHeader_of_not_has _ _ _ hct
    · rw [hnone] at ht
      simp [jsTruthy] at ht
  · have hf : jsTruthy token = false := by
      cases htok : jsTruthy token
      · rfl
      · exact absurd htok ht
    have hbh : buildHeaders token callerHeaders hasBody =
        contentHeaders callerHeaders hasBody := by
      unfold buildHeaders
      rw [if_neg ht]
    rw [hbh]
    refine ⟨?_, fun habs => absurd habs ht, fun _ => hct⟩
    rw [hct, hf]

/-- C7 witness: with the token `tok123` stored and no caller headers, the
bearer header is attached; with no token, it is absent. -/
theorem request_auth_header_witness :
    ("Authorization", "Bearer " ++ (some "tok123" : Option String).getD "")
      ∈ buildHeaders (some "tok123") [] true
  ∧ hasHeader "Authorization" (buildHeaders none [] true) = false :=
  ⟨(request_auth_header (some "tok123") [] true rfl).2.1 (by decide),
   (request_auth_header none [] true rfl).2.2 rfl⟩

/-- C9: the password form issues the update request exactly when the new
password matches its confirmation and is at least 6 characters long; a
violating submission sets an inline error, sends no request, and leaves
the password fields unchanged. -/
theorem password_update_validation (s : SettingsState) :
    ((passwordUpdateStep s).2 ≠ none ↔
      (s.newPassword = s.confirmPassword ∧ 6 ≤ s.newPassword.length))
  ∧ (s.newPassword = s.confirmPassword → 6 ≤ s.newPassword.length →
      (passwordUpdateStep s).2 = some (s.currentPassword, s.newPassword))
  ∧ ((s.newPassword ≠ s.confirmPassword ∨ s.newPassword.length < 6) →
      (passwordUpdateStep s).2 = none ∧
      (passwordUpdateStep s).1.errorMsg ≠ "" ∧
      (passwordUpdateStep s).1.currentPassword = s.currentPassword ∧
      (passwordUpdateStep s).1.newPassword = s.newPassword ∧
      (passwordUpdateStep s).1.confirmPassword = s.confirmPassword) := by
  by_cases h1 : s.newPassword = s.confirmPassword
  · have hcond1 : ¬((s.newPassword != s.confirmPassword) = true) := by
      simp [h1]
    by_cases h2 : s.newPassword.length < 6
    · have hstep : passwordUpdateStep s =
          ({ s with
              errorMsg := "New password must be at least 6 characters long",
              successMsg := "" }, none) := by
        unfold passwordUpdateStep
        rw [if_neg hcond1, if_pos h2]
      refine ⟨?_, ?_, ?_⟩ <;> rw [hstep]
      · constructor
        · intro hne
          exact absurd rfl hne
        · intro hab
          exact absurd hab.2 (by omega)
      · intro _ hle
        omega
      · intro _
        refine ⟨rfl, ?_, rfl, rfl, rfl⟩
        exact (by decide :
          "New password must be at least 6 characters long" ≠ "")
    · have hstep : passwordUpdateStep s =
          ({ s with errorMsg := "", successMsg := "" },
            some (s.currentPassword, s.newPassword)) := by
        unfold passwordUpdateStep
        rw [if_neg hcond1, if_neg h2]
      refine ⟨?_, ?_, ?_⟩ <;> rw [hstep]
      · exact ⟨fun _ => ⟨h1, by omega⟩, fun _ => by simp⟩
      · intro _ _
        rfl
      · intro hviol
        rcases hviol with hviol | hviol
        · exact absurd h1 hviol
        · omega
  · have hcond1 : (s.newPassword != s.confirmPassword) = true := by
      simp [h1]
    have hstep : passwordUpdateStep s =
        ({ s with
            errorMsg := "New passwords do not match",
            successMsg := "" }, none) := by
      unfold passwordUpdateStep
      rw [if_pos hcond1]
    refine ⟨?_, ?_, ?_⟩ <;> rw [hstep]
    · constructor
      · intro hne
        exact absurd rfl hne
      · intro hab
        exact absurd hab.1 h1
    · intro hab
      exact absurd hab h1
    · intro _
      refine ⟨rfl, ?_, rfl, rfl, rfl⟩
      exact (by decide : "New passwords do not match" ≠ "")

/-- C9 witness: a mismatching confirmation sets an inline error, sends no
request, and keeps the password fields. -/
theorem password_update_validation_witness :
    (passwordUpdateStep ⟨"", "", "old", "abcdef", "abcdeg"⟩).2 = none ∧
    (passwordUpdateStep ⟨"", "", "old", "abcdef", "abcdeg"⟩).1.errorMsg
      ≠ "" ∧
    (passwordUpdateStep ⟨"", "", "old", "abcdef", "abcdeg"⟩).1.currentPassword
      = "old" ∧
    (passwordUpdateStep ⟨"", "", "old", "abcdef", "abcdeg"⟩).1.newPassword
      = "abcdef" ∧
    (passwordUpdateStep ⟨"", "", "old", "abcdef", "abcdeg"⟩).1.confirmPassword
      = "abcdeg" :=
  (password_update_validation ⟨"", "", "old", "abcdef", "abcdeg"⟩).2.2
    (Or.inl (by decide))

theorem toggleProject_toggleProject (pid : String) (p : EditableProject) :
    toggleProject pid (toggleProject pid p) = p := by
  cases p with
  | mk pi pt pd pdd psel pcid =>
    unfold toggleProject
    by_cases hp : pi = pid
    · simp [hp]
    · simp [hp]

theorem toggleList_comp (pid : String) (l : List EditableProject) :
    l.map (toggleProject pid ∘ toggleProject pid) = l := by
  induction l with
  | nil => rfl
  | cons p ps ih => simp [Function.comp, toggleProject_toggleProject, ih]

theorem toggleInMessage_toggleInMessage (pid : String) (m : GoalMessage) :
    toggleInMessage pid (toggleInMessage pid m) = m := by
  cases m with
  | mk mid mmsg mresp mts mprops mreq =>
    cases mprops with
    | none => rfl
    | some l => simp [toggleInMessage, toggleList_comp]

theorem toggleMsgs_comp (pid : String) (ms : List GoalMessage) :
    ms.map (toggleInMessage pid ∘ toggleInMessage pid) = ms := by
  induction ms with
  | nil => rfl
  | cons m ms ih =>
    simp [Function.comp, toggleInMessage_toggleInMessage, ih]

theorem toggleInConversation_toggleInConversation (cid pid : String)
    (c : Conversation) :
    toggleInConversation cid pid (toggleInConversation cid pid c) = c := by
  cases c with
  | mk ci ct cms cca =>
    unfold toggleInConversation
    by_cases hc : ci = cid
    · simp [hc, toggleMsgs_comp]
    · simp [hc]

theorem toggleConvs_toggleConvs (cid pid : String)
    (cs : List Conversation) :
    (cs.map (toggleInConversation cid pid)).map
      (toggleInConversation cid pid) = cs := by
  induction cs with
  | nil => rfl
  | cons c cs ih => simp [toggleInConversation_toggleInConversation, ih]

theorem handleToggle_handleToggle (cur : Option String) (pid : String)
    (convs : List Conversation) :
    handleToggleProjectSelection cur pid
      (handleToggleProjectSelection cur pid convs) = convs := by
  unfold handleToggleProjectSelection
  by_cases ht : jsTruthy cur = true
  · simp only [if_pos ht]
    exact toggleConvs_toggleConvs _ _ _
  · simp only [if_neg ht]

/-- C10: toggling a proposal selection is an involution on the
conversations state; a single application flips exactly the `selected`
flag of the proposal with the given id, and leaves every other proposal,
every other message field, and every other conversation unchanged. -/
theorem toggle_selection_involution (cur : Option String) (pid : String)
    (convs : List Conversation) :
    handleToggleProjectSelection cur pid
        (handleToggleProjectSelection cur pid convs) = convs
  ∧ (∀ p : EditableProject, p.id ≠ pid → toggleProject pid p = p)
  ∧ (∀ p : EditableProject, p.id = pid →
      toggleProject pid p = { p with selected := !p.selected })
  ∧ (∀ m : GoalMessage,
      (toggleInMessage pid m).id = m.id ∧
      (toggleInMessage pid m).message = m.message ∧
      (toggleInMessage pid m).response = m.response ∧
      (toggleInMessage pid m).timestamp = m.timestamp ∧
      (toggleInMessage pid m).requiresConfirmation =
        m.requiresConfirmation ∧
      (toggleInMessage pid m).proposedProjects =
        m.proposedProjects.map (List.map (toggleProject pid)))
  ∧ (∀ (cid : String) (c : Conversation), c.id ≠ cid →
      toggleInConversation cid pid c = c)
  ∧ (∀ (cid : String) (c : Conversation), c.id = cid →
      toggleInConversation cid pid c =
        { c with messages := c.messages.map (toggleInMessage pid) }) := by
  refine ⟨handleToggle_handleToggle cur pid convs, ?_, ?_, ?_, ?_, ?_⟩
  · intro p hp
    unfold toggleProject
    rw [if_neg (by simp [hp])]
  · intro p hp
    unfold toggleProject
    rw [if_pos (by simp [hp])]
  · intro m
    exact ⟨rfl, rfl, rfl, rfl, rfl, rfl⟩
  · intro cid c hc
    unfold toggleInConversation
    rw [if_neg (by simp [hc])]
  · intro cid c hc
    unfold toggleInConversation
    rw [if_pos (by simp [hc])]

/-- C10 witness: double toggle on a sample conversation restores it, a
proposal with a different id is untouched, and the targeted proposal has
only its selection flipped. -/
theorem toggle_selection_involution_witness :
    handleToggleProjectSelection (some "conv-1") "proj-a-0"
        (handleToggleProjectSelection (some "conv-1") "proj-a-0"
          [demoConv]) = [demoConv]
  ∧ toggleProject "proj-a-0" demoSel = demoSel
  ∧ toggleProject "proj-a-0" demoProj =
      { demoProj with selected := !demoProj.selected } :=
  ⟨(toggle_selection_involution (some "conv-1") "proj-a-0" [demoConv]).1,
   (toggle_selection_involution (some "conv-1") "proj-a-0"
      [demoConv]).2.1 demoSel (by decide),
   (toggle_selection_involution (some "conv-1") "proj-a-0"
      [demoConv]).2.2.1 demoProj rfl⟩

/-- C1: a chat response carrying proposed projects never triggers a
project-creation request — the submit handler issues only the chat send
and stores the proposals in conversation state on the resolved message —
and `projectsApi.create` is issued solely by the move-selected action,
exactly one create per proposal selected at that moment. -/
theorem no_auto_create_on_chat_response (userMessage : String)
    (projs : List EditableProject) (tempId finalId : String)
    (resp : ChatResponse) (eps : List EditableProject) (m : GoalMessage) :
    (∀ call ∈ handleSubmitEffects userMessage, call.isCreate = false)
  ∧ (m.id = tempId → 0 < eps.length →
      (resolveGoalMessage tempId finalId resp eps m).proposedProjects =
          some eps ∧
      (resolveGoalMessage tempId finalId resp eps m).response =
          resp.response)
  ∧ ((handleMoveSelectedEffects projs).length =
      (projs.filter (fun p => p.selected)).length)
  ∧ (∀ p ∈ projs, p.selected = true →
      createCallOf p ∈ handleMoveSelectedEffects projs)
  ∧ (∀ call ∈ handleMoveSelectedEffects projs,
      ∃ p, p ∈ projs ∧ p.selected = true ∧ call = createCallOf p) := by
  refine ⟨?_, ?_, ?_, ?_, ?_⟩
  · intro call hc
    rw [handleSubmitEffects, List.mem_singleton] at hc
    subst hc
    rfl
  · intro hm hl
    unfold resolveGoalMessage
    rw [if_pos (by simp [hm])]
    constructor
    · show (if eps.length > 0 then some eps else none) = some eps
      rw [if_pos hl]
    · rfl
  · exact List.length_map _ _
  · intro p hp hsel
    exact List.mem_map_of_mem _ (List.mem_filter.mpr ⟨hp, hsel⟩)
  · intro call hc
    obtain ⟨p, hpf, rfl⟩ := List.mem_map.mp hc
    obtain ⟨hp, hsel⟩ := List.mem_filter.mp hpf
    exact ⟨p, hp, hsel, rfl⟩

/-- C1 witness: the submit effect is not a create, a resolved message
stores the proposals, and the move-selected action issues the create for
a concretely selected proposal. -/
theorem no_auto_create_on_chat_response_witness :
    ApiCall.isCreate (ApiCall.chatSend "hello") = false
  ∧ (resolveGoalMessage "t" "f" ⟨"r", none, none⟩ [demoProj]
        demoTempMsg).proposedProjects = some [demoProj]
  ∧ createCallOf demoSel ∈ handleMoveSelectedEffects [demoSel, demoProj] :=
  ⟨(no_auto_create_on_chat_response "hello" [demoSel, demoProj] "t" "f"
      ⟨"r", none, none⟩ [demoProj] demoTempMsg).1 (ApiCall.chatSend "hello")
      (List.mem_singleton.mpr rfl),
   ((no_auto_create_on_chat_response "hello" [demoSel, demoProj] "t" "f"
      ⟨"r", none, none⟩ [demoProj] demoTempMsg).2.1 rfl (by decide)).1,
   (no_auto_create_on_chat_response "hello" [demoSel, demoProj] "t" "f"
      ⟨"r", none, none⟩ [demoProj] demoTempMsg).2.2.2.1 demoSel
      (List.mem_cons_self _ _) rfl⟩

theorem map_update_of_fresh (tempId : String)
    (g : SimpleMessage → SimpleMessage) (msgs : List SimpleMessage)
    (h : tempId ∉ msgs.map SimpleMessage.id) :
    msgs.map (fun m => if m.id == tempId then g m else m) = msgs := by
  induction msgs with
  | nil => rfl
  | cons m ms ih =>
    rw [List.map_cons, List.mem_cons] at h
    push_neg at h
    rw [List.map_cons, if_neg (by simp [Ne.symm h.1]), ih h.2]

/-- C3: submitting a chat message appends a provisional message with the
user text and an empty response under a temporary id; once the call
resolves, exactly that message is updated — with the AI response on
success or the fixed error text on failure — every other message, the
length and the order are unchanged, and exactly one chat send is issued
with no retry. -/
theorem chat_submit_reconciliation (tempId newId userMessage ts r : String)
    (msgs : List SimpleMessage)
    (hfresh : tempId ∉ msgs.map SimpleMessage.id) :
    (appendProvisional tempId userMessage ts msgs).length = msgs.length + 1
  ∧ resolveChatSuccess tempId newId r
      (appendProvisional tempId userMessage ts msgs) =
      msgs ++ [{ id := newId, message := userMessage, response := r,
                 timestamp := ts }]
  ∧ resolveChatError tempId (appendProvisional tempId userMessage ts msgs) =
      msgs ++ [{ id := tempId, message := userMessage,
                 response := errorResponseText, timestamp := ts }]
  ∧ chatSubmitEffects userMessage = [ApiCall.chatSend userMessage] := by
  refine ⟨by simp [appendProvisional], ?_, ?_, rfl⟩
  · unfold resolveChatSuccess appendProvisional
    rw [List.map_append, map_update_of_fresh _ _ _ hfresh]
    simp
  · unfold resolveChatError appendProvisional
    rw [List.map_append, map_update_of_fresh _ _ _ hfresh]
    simp

/-- C3 witness: on the empty history the provisional message is appended
and then reconciled in place into the success and error forms. -/
theorem chat_submit_reconciliation_witness :
    resolveChatSuccess "t" "n" "resp" (appendProvisional "t" "hi" "t0" []) =
      [{ id := "n", message := "hi", response := "resp", timestamp := "t0" }]
  ∧ resolveChatError "t" (appendProvisional "t" "hi" "t0" []) =
      [{ id := "t", message := "hi", response := errorResponseText,
         timestamp := "t0" }] :=
  ⟨(chat_submit_reconciliation "t" "n" "hi" "t0" "resp" []
      (by simp)).2.1,
   (chat_submit_reconciliation "t" "n" "hi" "t0" "resp" []
      (by simp)).2.2.1⟩

theorem forall₂_map_self {α : Type} (f : α → α) (P : α → α → Prop)
    (h : ∀ a, P a (f a)) (l : List α) : List.Forall₂ P l (l.map f) := by
  induction l with
  | nil => exact List.Forall₂.nil
  | cons a as ih => exact List.Forall₂.cons (h a) ih

/-- C2: after a `generatePlan` call from the project workspace, a result
with `needs_clarification` set leaves the plan of the selected project and the
projects list untouched (and skips the reload in the chat path); only a
non-clarifying result replaces the plan — with the returned plan text —
in the selected project and in exactly its entry of the list, every other
entry unchanged. -/
theorem generate_plan_clarification_guard (sel : PlanProject)
    (projects : List PlanProject) (r : PlanResult) :
    (r.needs_clarification = true →
      applyGeneratePlanResult sel projects r = (sel, projects) ∧
      sendMessagePlanReloads r = false)
  ∧ (r.needs_clarification = false →
      (applyGeneratePlanResult sel projects r).1 =
        { sel with plan := some r.plan } ∧
      List.Forall₂ (fun p q : PlanProject =>
          (p.id = sel.id → q = { p with plan := some r.plan }) ∧
          (p.id ≠ sel.id → q = p))
        projects (applyGeneratePlanResult sel projects r).2 ∧
      sendMessagePlanReloads r = true) := by
  constructor
  · intro hc
    unfold applyGeneratePlanResult sendMessagePlanReloads
    rw [if_pos hc, hc]
    exact ⟨rfl, rfl⟩
  · intro hc
    unfold applyGeneratePlanResult sendMessagePlanReloads
    rw [if_neg (by simp [hc]), hc]
    refine ⟨rfl, ?_, rfl⟩
    refine forall₂_map_self _ _ ?_ projects
    intro p
    constructor
    · intro hp
      rw [if_pos (by simp [hp])]
    · intro hp
      rw [if_neg (by simp [hp])]

/-- C2 witness: a clarifying result leaves a stored plan untouched, and a
non-clarifying result replaces it. -/
theorem generate_plan_clarification_guard_witness :
    applyGeneratePlanResult demoPlanProj [demoPlanProj]
        ⟨"what is the scope", true⟩ = (demoPlanProj, [demoPlanProj])
  ∧ (applyGeneratePlanResult demoPlanProj [demoPlanProj]
        ⟨"final plan", false⟩).1 =
      { demoPlanProj with plan := some "final plan" } :=
  ⟨((generate_plan_clarification_guard demoPlanProj [demoPlanProj]
      ⟨"what is the scope", true⟩).1 rfl).1,
   ((generate_plan_clarification_guard demoPlanProj [demoPlanProj]
      ⟨"final plan", false⟩).2 rfl).1⟩

theorem find?_append_fresh (idv : String) (newP : BackendProject)
    (hnew : (newP.id == idv) = true) :
    ∀ store : List BackendProject, (∀ q ∈ store, q.id ≠ idv) →
      List.find? (fun q => q.id == idv) (store ++ [newP]) = some newP := by
  intro store
  induction store with
  | nil =>
    intro _
    simp [List.find?, hnew]
  | cons q qs ih =>
    intro hfresh
    have hq : ¬((fun q : BackendProject => q.id == idv) q = true) := by
      simp
      exact hfresh q (List.mem_cons_self q qs)
    rw [List.cons_append,
        List.find?_cons_of_neg (p := fun q => q.id == idv) (a := q) _ hq]
    exact ih (fun x hx => hfresh x (List.mem_cons_of_mem q hx))

/-- C8: creating a Project and fetching it returns the same title,
description and due date (and an empty plan), and a partial update sets
exactly the provided field, leaving every other field of the row and
every other row unchanged. Modelled from the spec, as the backend CRUD
code is not in src/. -/
theorem project_crud_roundtrip_frame (store : List BackendProject)
    (id title : String) (description due_date : Option String)
    (p : BackendProject) (u : BackendProjectUpdate) :
    ((∀ q ∈ store, q.id ≠ id) →
      getProject (createProject store id title description due_date) id =
        some { id := id, title := title, description := description,
               due_date := due_date, plan := none })
  ∧ (∀ t, applyProjectUpdate p
        { title := some t, description := none, due_date := none } =
      { p with title := t })
  ∧ (∀ d, applyProjectUpdate p
        { title := none, description := some d, due_date := none } =
      { p with description := some d })
  ∧ (∀ d, applyProjectUpdate p
        { title := none, description := none, due_date := some d } =
      { p with due_date := some d })
  ∧ (p ∈ store → p.id ≠ id → p ∈ updateProject store id u) := by
  refine ⟨?_, fun t => rfl, fun d => rfl, fun d => rfl, ?_⟩
  · intro hfresh
    unfold getProject createProject
    exact find?_append_fresh id _ (by simp) store hfresh
  · intro hp hne
    unfold updateProject
    have hmem := List.mem_map_of_mem
      (fun q => if q.id == id then applyProjectUpdate q u else q) hp
    simp only at hmem
    rwa [if_neg (by simp [hne])] at hmem

/-- C8 witness: a concrete create-then-fetch round trip on a store that
already holds another project, a one-field update of that project, and
the frame on the untouched row. -/
theorem project_crud_roundtrip_frame_witness :
    getProject (createProject [demoBack] "p1" "T" (some "desc") none) "p1" =
      some { id := "p1", title := "T", description := some "desc",
             due_date := none, plan := none }
  ∧ applyProjectUpdate demoBack
      { title := some "B", description := none, due_date := none } =
      { demoBack with title := "B" }
  ∧ demoBack ∈ updateProject [demoBack] "p1"
      { title := some "B", description := none, due_date := none } :=
  ⟨(project_crud_roundtrip_frame [demoBack] "p1" "T" (some "desc") none
      demoBack ⟨some "B", none, none⟩).1 (by decide),
   (project_crud_roundtrip_frame [demoBack] "p1" "T" (some "desc") none
      demoBack ⟨some "B", none, none⟩).2.1 "B",
   (project_crud_roundtrip_frame [demoBack] "p1" "T" (some "desc") none
      demoBack ⟨some "B", none, none⟩).2.2.2.2 (List.mem_singleton.mpr rfl)
      (by decide)⟩

end SmartLife
